import Mathlib

/-!
Verification development for a JSON-over-HTTP RPC client for a cryptocurrency
node (source: `src/client/nano-client.ts`).  The client builds a request body
`JSON.stringify (setting the action tag, then spreading the caller parameters)`,
issues one HTTP POST via axios with `Object.assign(defaultHeaders, requestHeaders)`
as headers, and resolves or rejects depending on the response data.

The embedding models JavaScript objects as association lists of string keys,
object-literal spread and `Object.assign` as an in-order field update
(`setField` / `spreadInto`), and the promise returned by `_send` as an explicit
outcome value together with the list of HTTP requests actually issued.
-/

/-- A JSON value as produced by `JSON.parse` / consumed by `JSON.stringify`.
Numbers are modelled as integers (the client only ever passes integral counts
and amounts). -/
inductive JsonValue where
  | str : String → JsonValue
  | num : Int → JsonValue
  | bool : Bool → JsonValue
  | null : JsonValue
  | arr : List JsonValue → JsonValue
  | obj : List (String × JsonValue) → JsonValue

/-- First-occurrence lookup in an association list; JavaScript objects have
unique keys, so this is exactly property access, with `none` for `undefined`. -/
def jsLookup {α : Type} : List (String × α) → String → Option α
  | [], _ => none
  | p :: rest, k => if p.1 = k then some p.2 else jsLookup rest k

/-- `optOr a b` is `a` if present, else `b` (the JS "first binding wins" used
below to phrase lookup in merged objects). -/
def optOr {α : Type} : Option α → Option α → Option α
  | some v, _ => some v
  | none, b => b

/-- Assign field `k ↦ v` on an object: if the key is present its value is
updated in place (keeping its position), otherwise the field is appended.
This is the semantics of one step of object spread and of `Object.assign`. -/
def setField {α : Type} : List (String × α) → String → α → List (String × α)
  | [], k, v => [(k, v)]
  | p :: rest, k, v => if p.1 = k then (k, v) :: rest else p :: setField rest k v

/-- Spread `extra` over `base` (`{...base, ...extra}`, or equivalently
`Object.assign(base, extra)` as a value): assign each field of `extra` in
order onto `base`. -/
def spreadInto {α : Type} (base extra : List (String × α)) : List (String × α) :=
  extra.foldl (fun acc p => setField acc p.1 p.2) base

theorem optOr_absorb {α : Type} (a b : Option α) : optOr a (optOr a b) = optOr a b := by
  cases a <;> rfl

theorem jsLookup_append {α : Type} (a b : List (String × α)) (k : String) :
    jsLookup (a ++ b) k = optOr (jsLookup a k) (jsLookup b k) := by
  induction a with
  | nil => rfl
  | cons p rest ih =>
      by_cases h : p.1 = k
      · simp [jsLookup, h, optOr]
      · simp [jsLookup, h, ih]

theorem jsLookup_setField {α : Type} (o : List (String × α)) (k : String) (v : α)
    (j : String) :
    jsLookup (setField o k v) j = if j = k then some v else jsLookup o j := by
  induction o with
  | nil =>
      by_cases h : j = k
      · simp [setField, jsLookup, h]
      · simp [setField, jsLookup, h, Ne.symm h]
  | cons p rest ih =>
      by_cases hp : p.1 = k
      · by_cases hj : j = k
        · subst hj; simp [setField, hp, jsLookup]
        · simp [setField, hp, jsLookup, hj, Ne.symm hj]
      · by_cases hj : j = k
        · subst hj; simp [setField, hp, jsLookup, ih]
        · simp [setField, hp, jsLookup, ih, hj]

theorem jsLookup_spreadInto {α : Type} (extra base : List (String × α)) (k : String) :
    jsLookup (spreadInto base extra) k
      = optOr (jsLookup extra.reverse k) (jsLookup base k) := by
  induction extra generalizing base with
  | nil => rfl
  | cons p rest ih =>
      show jsLookup (spreadInto (setField base p.1 p.2) rest) k = _
      rw [ih, List.reverse_cons, jsLookup_append, jsLookup_setField]
      cases h : jsLookup rest.reverse k with
      | some w => simp [optOr]
      | none =>
          by_cases hk : k = p.1
          · simp [optOr, jsLookup, hk]
          · simp [optOr, jsLookup, hk, Ne.symm hk]

/-- Errors the client code can raise locally: the wrapped `JSON.stringify`
failure (`throw new Error(e)` in `_buildRPCBody`), and the `TypeError` a
property access on `null`/`undefined` would raise. -/
inductive JSError where
  | serializationError : JSError
  | typeError : JSError

/-- The mutable fields of a `NanoClient` instance: `nodeAddress` (possibly
`undefined`), `requestHeaders`, and the instance field `defaultHeaders`
initialised to a content-type entry. -/
structure ClientState where
  nodeAddress : Option String
  requestHeaders : List (String × String)
  defaultHeaders : List (String × String)

/-- Initial value of the `defaultHeaders` instance field. -/
def defaultHeadersInit : List (String × String) :=
  [("content-type", "application/json")]

/-- The constructor's `options` argument: both recognised properties may be
absent (`undefined`). The argument itself may be `undefined`, hence the
`Option CtorOptions` below. -/
structure CtorOptions where
  url : Option String
  requestHeaders : Option (List (String × String))

/-- The `NanoClient` constructor. `options?.url` and `options?.requestHeaders`
use optional chaining, so an `undefined` options object yields `undefined`
rather than raising a `TypeError`; `|| {}` replaces an absent header mapping
with the empty object. The `Except` return type records that the constructor
could in principle throw (it never does). -/
def construct (options : Option CtorOptions) : Except JSError ClientState :=
  Except.ok
    { nodeAddress := options.bind CtorOptions.url
      requestHeaders := (options.bind CtorOptions.requestHeaders).getD []
      defaultHeaders := defaultHeadersInit }

/-- The parameter bag handed to `_send`: either a JS object whose fields are
JSON-representable, or an object `JSON.stringify` cannot serialize (cyclic,
or containing a BigInt). -/
inductive JSParams where
  | serializable : List (String × JsonValue) → JSParams
  | unserializable : JSParams

/-- `_buildRPCBody`: builds `(action tag, then caller parameters spread over it)`
and serializes it; `JSON.stringify` throwing is re-thrown as a wrapped `Error`.
The result is kept at the object level (the serialized string is the
JSON rendering of this object). -/
def buildRPCBody (action : String) (params : JSParams) :
    Except JSError (List (String × JsonValue)) :=
  match params with
  | .serializable fields => .ok (spreadInto [("action", JsonValue.str action)] fields)
  | .unserializable => .error .serializationError

/-- The request-body object built for an action with serializable fields. -/
def buildRPCBodyObj (action : String) (fields : List (String × JsonValue)) :
    List (String × JsonValue) :=
  spreadInto [("action", JsonValue.str action)] fields

/-- One HTTP request as configured for `axios.request`. -/
structure HttpRequest where
  method : String
  url : Option String
  body : List (String × JsonValue)
  headers : List (String × String)

/-- Result of the axios exchange: the axios promise either fulfills with the
response data (axios only fulfills for accepted HTTP statuses) or rejects
(network failure, or a non-accepted status). -/
inductive TransportResult where
  | fulfilled : JsonValue → TransportResult
  | rejected : JsonValue → TransportResult

/-- How the promise returned by `_send` settles, plus the case of a method
throwing synchronously before returning a promise (which `_send` never does:
the Promise executor catches any throw and rejects instead), and the case of
the outer promise never settling (a throw inside the `.then` callback). -/
inductive SendOutcome where
  | resolved : JsonValue → SendOutcome
  | rejectedData : JsonValue → SendOutcome
  | rejectedErr : JsonValue → SendOutcome
  | rejectedBuild : JSError → SendOutcome
  | unsettled : SendOutcome
  | syncThrow : JSError → SendOutcome

/-- Observable behaviour of one `_send` call: the HTTP requests issued and how
the returned promise settles. -/
structure SendTrace where
  requests : List HttpRequest
  outcome : SendOutcome

/-- `response.data.error` as a JS property access: `undefined` for strings,
numbers, booleans and arrays, a `TypeError` on `null`. -/
def getErrorProp : JsonValue → Except JSError (Option JsonValue)
  | .null => .error .typeError
  | .obj fields => .ok (jsLookup fields "error")
  | _ => .ok none

/-- JavaScript truthiness of a possibly-`undefined` value. -/
def truthy : Option JsonValue → Bool
  | none => false
  | some .null => false
  | some (.bool b) => b
  | some (.num n) => n != 0
  | some (.str s) => s != ""
  | some (.arr _) => true
  | some (.obj _) => true

/-- `_send`, as a function of the instance state, the action, the parameter
bag, and the behaviours of the two external effects (the axios transport and
`JSON.parse`). Evaluation order follows the source: the axios config object
evaluates `data: this._buildRPCBody(...)` before
`headers: Object.assign(this.defaultHeaders, this.requestHeaders)`, so a
serialization failure throws inside the Promise executor (rejecting the
promise) before any request is issued and before the header merge mutates
`defaultHeaders`. On success the mutated header object is both stored back
into the instance and sent with the single POST. -/
def sendModel (c : ClientState) (action : String) (params : JSParams)
    (transport : HttpRequest → TransportResult)
    (parse : String → Option JsonValue) : SendTrace × ClientState :=
  match buildRPCBody action params with
  | .error e => ({ requests := [], outcome := .rejectedBuild e }, c)
  | .ok body =>
      let mergedHeaders := spreadInto c.defaultHeaders c.requestHeaders
      let req : HttpRequest :=
        { method := "POST", url := c.nodeAddress, body := body, headers := mergedHeaders }
      let c' : ClientState := { c with defaultHeaders := mergedHeaders }
      let outcome : SendOutcome :=
        match transport req with
        | .rejected e => .rejectedErr e
        | .fulfilled data =>
            match getErrorProp data with
            | .error _ => .unsettled
            | .ok prop =>
                if truthy prop then .rejectedData data
                else
                  match data with
                  | .str s =>
                      match parse s with
                      | some v => .resolved v
                      | none => .unsettled
                  | d => .resolved d
      ({ requests := [req], outcome := outcome }, c')

/-- One client call: an action with its parameter bag, together with the
behaviour of the environment (transport and `JSON.parse`) during that call. -/
structure CallSpec where
  action : String
  params : JSParams
  transport : HttpRequest → TransportResult
  parse : String → Option JsonValue

/-- Run a sequence of calls on a client instance, tracking the instance state. -/
def runCalls (c : ClientState) (calls : List CallSpec) : ClientState :=
  calls.foldl (fun st s => (sendModel st s.action s.params s.transport s.parse).2) c

theorem sendModel_state (c : ClientState) (action : String) (params : JSParams)
    (transport : HttpRequest → TransportResult) (parse : String → Option JsonValue) :
    (sendModel c action params transport parse).2
      = match params with
        | .unserializable => c
        | .serializable _ =>
            { c with defaultHeaders := spreadInto c.defaultHeaders c.requestHeaders } := by
  cases params <;> rfl

theorem runCalls_preserves (calls : List CallSpec) (c : ClientState) :
    (runCalls c calls).nodeAddress = c.nodeAddress ∧
    (runCalls c calls).requestHeaders = c.requestHeaders ∧
    ∀ k, jsLookup (spreadInto (runCalls c calls).defaultHeaders
            (runCalls c calls).requestHeaders) k
          = jsLookup (spreadInto c.defaultHeaders c.requestHeaders) k := by
  induction calls generalizing c with
  | nil => exact ⟨rfl, rfl, fun _ => rfl⟩
  | cons s rest ih =>
      have hstep : runCalls c (s :: rest)
          = runCalls ((sendModel c s.action s.params s.transport s.parse).2) rest := rfl
      rw [hstep, sendModel_state]
      cases hp : s.params with
      | unserializable => exact ih c
      | serializable fields =>
          obtain ⟨h1, h2, h3⟩ :=
            ih { c with defaultHeaders := spreadInto c.defaultHeaders c.requestHeaders }
          refine ⟨h1, h2, fun k => ?_⟩
          rw [h3 k]
          show jsLookup (spreadInto (spreadInto c.defaultHeaders c.requestHeaders)
            c.requestHeaders) k = _
          rw [jsLookup_spreadInto, jsLookup_spreadInto]
          exact optOr_absorb _ _

/-- A `string | number` argument (the unit-conversion methods). -/
inductive StrOrNum where
  | s : String → StrOrNum
  | n : Int → StrOrNum

/-- The JSON value a `string | number` argument serializes to. -/
def StrOrNum.toJson : StrOrNum → JsonValue
  | .s v => .str v
  | .n v => .num v

/-- Options object accepted by `account_history` (all properties optional). -/
structure AccountHistoryOptions where
  raw : Option Bool
  head : Option String
  offset : Option Int
  reverse : Option Bool
  account_filter : Option (List String)

/-- The fields a caller-built `account_history` options object carries: only
the properties the caller actually supplied are present. -/
def AccountHistoryOptions.toObj (o : AccountHistoryOptions) :
    List (String × JsonValue) :=
  (o.raw.map fun b => ("raw", JsonValue.bool b)).toList ++
  (o.head.map fun s => ("head", JsonValue.str s)).toList ++
  (o.offset.map fun n => ("offset", JsonValue.num n)).toList ++
  (o.reverse.map fun b => ("reverse", JsonValue.bool b)).toList ++
  (o.account_filter.map fun l =>
    ("account_filter", JsonValue.arr (l.map JsonValue.str))).toList

/-- Options object accepted by `account_info`. -/
structure AccountInfoOptions where
  representative : Option Bool
  weight : Option Bool
  pending : Option Bool

/-- The fields a caller-built `account_info` options object carries. -/
def AccountInfoOptions.toObj (o : AccountInfoOptions) : List (String × JsonValue) :=
  (o.representative.map fun b => ("representative", JsonValue.bool b)).toList ++
  (o.weight.map fun b => ("weight", JsonValue.bool b)).toList ++
  (o.pending.map fun b => ("pending", JsonValue.bool b)).toList

/-- Request body built by `account_balance(account)`. -/
def account_balance_body (account : String) : List (String × JsonValue) :=
  buildRPCBodyObj "account_balance" [("account", JsonValue.str account)]

/-- Request body built by `account_block_count(account)`. -/
def account_block_count_body (account : String) : List (String × JsonValue) :=
  buildRPCBodyObj "account_block_count" [("account", JsonValue.str account)]

/-- Request body built by `account_get(key)`. -/
def account_get_body (key : String) : List (String × JsonValue) :=
  buildRPCBodyObj "account_get" [("key", JsonValue.str key)]

/-- Request body built by `account_history(account, count = 1, params?)`:
the object literal is `(account, count, then the options spread)`. An omitted
`count` (modelled as `none`) takes the default value 1; an omitted options
object spreads to nothing. -/
def account_history_body (account : String) (count : Option Int)
    (params : Option AccountHistoryOptions) : List (String × JsonValue) :=
  buildRPCBodyObj "account_history"
    (spreadInto
      [("account", JsonValue.str account), ("count", JsonValue.num (count.getD 1))]
      (match params with | none => [] | some o => o.toObj))

/-- Request body built by `account_info(account, params)`. -/
def account_info_body (account : String) (params : AccountInfoOptions) :
    List (String × JsonValue) :=
  buildRPCBodyObj "account_info"
    (spreadInto [("account", JsonValue.str account)] params.toObj)

/-- Request body built by `account_key(account)`. -/
def account_key_body (account : String) : List (String × JsonValue) :=
  buildRPCBodyObj "account_key" [("account", JsonValue.str account)]

/-- Request body built by `account_representative(account)`. -/
def account_representative_body (account : String) : List (String × JsonValue) :=
  buildRPCBodyObj "account_representative" [("account", JsonValue.str account)]

/-- Request body built by `account_weight(account)`. -/
def account_weight_body (account : String) : List (String × JsonValue) :=
  buildRPCBodyObj "account_weight" [("account", JsonValue.str account)]

/-- Request body built by `available_supply()` (no parameter object). -/
def available_supply_body : List (String × JsonValue) :=
  buildRPCBodyObj "available_supply" []

/-- Request body built by `block(hash)`. -/
def block_body (hash : String) : List (String × JsonValue) :=
  buildRPCBodyObj "block" [("hash", JsonValue.str hash)]

/-- Request body built by `blocks(hashes)`. -/
def blocks_body (hashes : List String) : List (String × JsonValue) :=
  buildRPCBodyObj "blocks" [("hashes", JsonValue.arr (hashes.map JsonValue.str))]

/-- Request body built by `block_account(hash)`. -/
def block_account_body (hash : String) : List (String × JsonValue) :=
  buildRPCBodyObj "block_account" [("hash", JsonValue.str hash)]

/-- Request body built by `block_count()`. -/
def block_count_body : List (String × JsonValue) :=
  buildRPCBodyObj "block_count" []

/-- Request body built by `blocks_info(hashes, source = false, pending = false)`
(`hashes` is declared `string` in the source). -/
def blocks_info_body (hashes : String) (source pending : Option Bool) :
    List (String × JsonValue) :=
  buildRPCBodyObj "blocks_info"
    [("hashes", JsonValue.str hashes),
     ("source", JsonValue.bool (source.getD false)),
     ("pending", JsonValue.bool (pending.getD false))]

/-- Request body built by `block_count_type()`. -/
def block_count_type_body : List (String × JsonValue) :=
  buildRPCBodyObj "block_count_type" []

/-- Request body built by `chain(block, count = 1)`. -/
def chain_body (block : String) (count : Option Int) : List (String × JsonValue) :=
  buildRPCBodyObj "chain"
    [("block", JsonValue.str block), ("count", JsonValue.num (count.getD 1))]

/-- Request body built by `frontiers(account, count = 1)`. -/
def frontiers_body (account : String) (count : Option Int) :
    List (String × JsonValue) :=
  buildRPCBodyObj "frontiers"
    [("account", JsonValue.str account), ("count", JsonValue.num (count.getD 1))]

/-- Request body built by `frontiers_count()`. -/
def frontiers_count_body : List (String × JsonValue) :=
  buildRPCBodyObj "frontiers_count" []

/-- Request body built by `history(hash, count = 1)`. -/
def history_body (hash : String) (count : Option Int) : List (String × JsonValue) :=
  buildRPCBodyObj "history"
    [("hash", JsonValue.str hash), ("count", JsonValue.num (count.getD 1))]

/-- Request body built by `mrai_from_raw(amount)`. -/
def mrai_from_raw_body (amount : StrOrNum) : List (String × JsonValue) :=
  buildRPCBodyObj "mrai_from_raw" [("amount", amount.toJson)]

/-- Request body built by `mrai_to_raw(amount)`. -/
def mrai_to_raw_body (amount : StrOrNum) : List (String × JsonValue) :=
  buildRPCBodyObj "mrai_to_raw" [("amount", amount.toJson)]

/-- Request body built by `krai_from_raw(amount)`. -/
def krai_from_raw_body (amount : StrOrNum) : List (String × JsonValue) :=
  buildRPCBodyObj "krai_from_raw" [("amount", amount.toJson)]

/-- Request body built by `krai_to_raw(amount)`. -/
def krai_to_raw_body (amount : StrOrNum) : List (String × JsonValue) :=
  buildRPCBodyObj "krai_to_raw" [("amount", amount.toJson)]

/-- Request body built by `rai_from_raw(amount)`. -/
def rai_from_raw_body (amount : StrOrNum) : List (String × JsonValue) :=
  buildRPCBodyObj "rai_from_raw" [("amount", amount.toJson)]

/-- Request body built by `rai_to_raw(amount)`. -/
def rai_to_raw_body (amount : StrOrNum) : List (String × JsonValue) :=
  buildRPCBodyObj "rai_to_raw" [("amount", amount.toJson)]

/-- Request body built by
`ledger(account, count = 1, representative = false, weight = false, pending = false, sorting = false)`. -/
def ledger_body (account : String) (count : Option Int)
    (representative weight pending sorting : Option Bool) :
    List (String × JsonValue) :=
  buildRPCBodyObj "ledger"
    [("account", JsonValue.str account),
     ("count", JsonValue.num (count.getD 1)),
     ("representative", JsonValue.bool (representative.getD false)),
     ("weight", JsonValue.bool (weight.getD false)),
     ("pending", JsonValue.bool (pending.getD false)),
     ("sorting", JsonValue.bool (sorting.getD false))]

/-- Request body built by `block_create(type, key, account, representative, source)`. -/
def block_create_body (type key account representative source : String) :
    List (String × JsonValue) :=
  buildRPCBodyObj "block_create"
    [("type", JsonValue.str type),
     ("key", JsonValue.str key),
     ("account", JsonValue.str account),
     ("representative", JsonValue.str representative),
     ("source", JsonValue.str source)]

/-- Request body built by `process(block)`. -/
def process_body (block : String) : List (String × JsonValue) :=
  buildRPCBodyObj "process" [("block", JsonValue.str block)]

/-- Request body built by `representatives(count = 1, sorting = false)`: the
source calls `this._send('representatives')` with no parameter object, so the
two arguments do not reach the body. -/
def representatives_body (count : Option Int) (sorting : Option Bool) :
    List (String × JsonValue) :=
  buildRPCBodyObj "representatives" []

/-- C1 counterexample: the claim quantifies over every supported RPC action,
but `representatives(3, true)` produces the body with only the action tag:
the caller-supplied `count` and `sorting` are not merged into it. -/
theorem c1_counterexample :
    representatives_body (some 3) (some true)
      = [("action", JsonValue.str "representatives")] ∧
    representatives_body (some 3) (some true)
      ≠ [("action", JsonValue.str "representatives"), ("count", JsonValue.num 3),
         ("sorting", JsonValue.bool true)] ∧
    jsLookup (representatives_body (some 3) (some true)) "count" = none := by
  refine ⟨rfl, ?_, rfl⟩
  intro h
  simp [representatives_body, buildRPCBodyObj, spreadInto] at h

/-- C1 (amended): for every supported RPC action except `representatives`
(which accepts but does not forward its two parameters, see C6), invoking the
client method with valid parameters produces a request body whose `action`
field is the documented action name and whose remaining fields are exactly
the caller-supplied parameters merged with the documented defaults
(`count` defaulting to 1, positional flags to `false`, and an options object
contributing exactly the fields the caller supplied). -/
theorem c1_bodies_amended :
    (∀ account, account_balance_body account
      = [("action", JsonValue.str "account_balance"),
         ("account", JsonValue.str account)]) ∧
    (∀ account, account_block_count_body account
      = [("action", JsonValue.str "account_block_count"),
         ("account", JsonValue.str account)]) ∧
    (∀ key, account_get_body key
      = [("action", JsonValue.str "account_get"), ("key", JsonValue.str key)]) ∧
    (∀ account count params, account_history_body account count params
      = ("action", JsonValue.str "account_history")
        :: ("account", JsonValue.str account)
        :: ("count", JsonValue.num (count.getD 1))
        :: (match params with | none => [] | some o => o.toObj)) ∧
    (∀ account params, account_info_body account params
      = ("action", JsonValue.str "account_info")
        :: ("account", JsonValue.str account) :: params.toObj) ∧
    (∀ account, account_key_body account
      = [("action", JsonValue.str "account_key"),
         ("account", JsonValue.str account)]) ∧
    (∀ account, account_representative_body account
      = [("action", JsonValue.str "account_representative"),
         ("account", JsonValue.str account)]) ∧
    (∀ account, account_weight_body account
      = [("action", JsonValue.str "account_weight"),
         ("account", JsonValue.str account)]) ∧
    (available_supply_body = [("action", JsonValue.str "available_supply")]) ∧
    (∀ hash, block_body hash
      = [("action", JsonValue.str "block"), ("hash", JsonValue.str hash)]) ∧
    (∀ hashes, blocks_body hashes
      = [("action", JsonValue.str "blocks"),
         ("hashes", JsonValue.arr (hashes.map JsonValue.str))]) ∧
    (∀ hash, block_account_body hash
      = [("action", JsonValue.str "block_account"), ("hash", JsonValue.str hash)]) ∧
    (block_count_body = [("action", JsonValue.str "block_count")]) ∧
    (∀ hashes source pending, blocks_info_body hashes source pending
      = [("action", JsonValue.str "blocks_info"),
         ("hashes", JsonValue.str hashes),
         ("source", JsonValue.bool (source.getD false)),
         ("pending", JsonValue.bool (pending.getD false))]) ∧
    (block_count_type_body = [("action", JsonValue.str "block_count_type")]) ∧
    (∀ block count, chain_body block count
      = [("action", JsonValue.str "chain"), ("block", JsonValue.str block),
         ("count", JsonValue.num (count.getD 1))]) ∧
    (∀ account count, frontiers_body account count
      = [("action", JsonValue.str "frontiers"), ("account", JsonValue.str account),
         ("count", JsonValue.num (count.getD 1))]) ∧
    (frontiers_count_body = [("action", JsonValue.str "frontiers_count")]) ∧
    (∀ hash count, history_body hash count
      = [("action", JsonValue.str "history"), ("hash", JsonValue.str hash),
         ("count", JsonValue.num (count.getD 1))]) ∧
    (∀ amount, mrai_from_raw_body amount
      = [("action", JsonValue.str "mrai_from_raw"), ("amount", amount.toJson)]) ∧
    (∀ amount, mrai_to_raw_body amount
      = [("action", JsonValue.str "mrai_to_raw"), ("amount", amount.toJson)]) ∧
    (∀ amount, krai_from_raw_body amount
      = [("action", JsonValue.str "krai_from_raw"), ("amount", amount.toJson)]) ∧
    (∀ amount, krai_to_raw_body amount
      = [("action", JsonValue.str "krai_to_raw"), ("amount", amount.toJson)]) ∧
    (∀ amount, rai_from_raw_body amount
      = [("action", JsonValue.str "rai_from_raw"), ("amount", amount.toJson)]) ∧
    (∀ amount, rai_to_raw_body amount
      = [("action", JsonValue.str "rai_to_raw"), ("amount", amount.toJson)]) ∧
    (∀ account count representative weight pending sorting,
      ledger_body account count representative weight pending sorting
      = [("action", JsonValue.str "ledger"), ("account", JsonValue.str account),
         ("count", JsonValue.num (count.getD 1)),
         ("representative", JsonValue.bool (representative.getD false)),
         ("weight", JsonValue.bool (weight.getD false)),
         ("pending", JsonValue.bool (pending.getD false)),
         ("sorting", JsonValue.bool (sorting.getD false))]) ∧
    (∀ type key account representative source,
      block_create_body type key account representative source
      = [("action", JsonValue.str "block_create"), ("type", JsonValue.str type),
         ("key", JsonValue.str key), ("account", JsonValue.str account),
         ("representative", JsonValue.str representative),
         ("source", JsonValue.str source)]) ∧
    (∀ block, process_body block
      = [("action", JsonValue.str "process"), ("block", JsonValue.str block)]) := by
  refine ⟨fun _ => rfl, fun _ => rfl, fun _ => rfl, ?_, ?_,
    fun _ => rfl, fun _ => rfl, fun _ => rfl, rfl, fun _ => rfl, fun _ => rfl,
    fun _ => rfl, rfl, fun _ _ _ => rfl, rfl, fun _ _ => rfl, fun _ _ => rfl, rfl,
    fun _ _ => rfl, fun _ => rfl, fun _ => rfl, fun _ => rfl, fun _ => rfl,
    fun _ => rfl, fun _ => rfl, fun _ _ _ _ _ _ => rfl, fun _ _ _ _ _ => rfl,
    fun _ => rfl⟩
  · intro account count params
    cases params with
    | none => rfl
    | some o =>
        obtain ⟨r, h, off, rv, f⟩ := o
        cases r <;> cases h <;> cases off <;> cases rv <;> cases f <;> rfl
  · intro account params
    obtain ⟨r, w, p⟩ := params
    cases r <;> cases w <;> cases p <;> rfl

/-- C6: for every `count` and `sorting` argument, `representatives(count,
sorting)` builds the request body containing only the action tag; the two
parameters are accepted by the signature but never forwarded. -/
theorem c6_representatives_drops_params :
    ∀ (count : Option Int) (sorting : Option Bool),
      representatives_body count sorting
        = [("action", JsonValue.str "representatives")] ∧
      jsLookup (representatives_body count sorting) "count" = none ∧
      jsLookup (representatives_body count sorting) "sorting" = none :=
  fun _ _ => ⟨rfl, rfl, rfl⟩

/-- C7 counterexample: for `account_history` with the `raw` flag omitted, the
envelope contains no `raw` field at all — it does not contain `raw: false`
as the claim states. -/
theorem c7_counterexample :
    jsLookup (account_history_body "nano_1abc" none none) "raw" = none ∧
    jsLookup (account_history_body "nano_1abc" none none) "raw"
      ≠ some (JsonValue.bool false) := by
  refine ⟨rfl, ?_⟩
  intro h
  exact Option.noConfusion h

/-- C7 (amended): an omitted `count` parameter defaults to 1 in the envelope
(`account_history`, `chain`, `frontiers`, `history`, `ledger`); omitted
positional boolean flags appear as `false` in the envelope (`blocks_info`'s
`source`/`pending`, `ledger`'s four flags); but boolean flags carried by an
optional options object (`account_history`, `account_info`) are simply absent
from the envelope when omitted, not `false`. -/
theorem c7_defaults_amended :
    (∀ account, jsLookup (account_history_body account none none) "count"
      = some (JsonValue.num 1)) ∧
    (∀ block, jsLookup (chain_body block none) "count" = some (JsonValue.num 1)) ∧
    (∀ account, jsLookup (frontiers_body account none) "count"
      = some (JsonValue.num 1)) ∧
    (∀ hash, jsLookup (history_body hash none) "count" = some (JsonValue.num 1)) ∧
    (∀ account, jsLookup (ledger_body account none none none none none) "count"
      = some (JsonValue.num 1)) ∧
    (∀ hashes, jsLookup (blocks_info_body hashes none none) "source"
      = some (JsonValue.bool false)) ∧
    (∀ hashes, jsLookup (blocks_info_body hashes none none) "pending"
      = some (JsonValue.bool false)) ∧
    (∀ account, jsLookup (ledger_body account none none none none none)
      "representative" = some (JsonValue.bool false)) ∧
    (∀ account, jsLookup (ledger_body account none none none none none) "weight"
      = some (JsonValue.bool false)) ∧
    (∀ account, jsLookup (ledger_body account none none none none none) "pending"
      = some (JsonValue.bool false)) ∧
    (∀ account, jsLookup (ledger_body account none none none none none) "sorting"
      = some (JsonValue.bool false)) ∧
    (∀ account, jsLookup (account_history_body account none none) "raw" = none) ∧
    (∀ account, jsLookup (account_history_body account none none) "reverse" = none) ∧
    (∀ account, jsLookup (account_info_body account ⟨none, none, none⟩)
      "representative" = none) ∧
    (∀ account, jsLookup (account_info_body account ⟨none, none, none⟩)
      "weight" = none) ∧
    (∀ account, jsLookup (account_info_body account ⟨none, none, none⟩)
      "pending" = none) :=
  ⟨fun _ => rfl, fun _ => rfl, fun _ => rfl, fun _ => rfl, fun _ => rfl,
   fun _ => rfl, fun _ => rfl, fun _ => rfl, fun _ => rfl, fun _ => rfl,
   fun _ => rfl, fun _ => rfl, fun _ => rfl, fun _ => rfl, fun _ => rfl,
   fun _ => rfl⟩

/-- C2 counterexample: the response body `(error field bound to the empty
string)` contains a top-level `error` field, yet the call resolves with the
body instead of rejecting: the code tests `response.data.error` for
truthiness, and the empty string is falsy. -/
theorem c2_counterexample :
    (sendModel ⟨some "http://localhost:7076", [], defaultHeadersInit⟩
        "account_balance" (JSParams.serializable [("account", JsonValue.str "nano_1abc")])
        (fun _ => TransportResult.fulfilled (JsonValue.obj [("error", JsonValue.str "")]))
        (fun _ => none)).1.outcome
      = SendOutcome.resolved (JsonValue.obj [("error", JsonValue.str "")]) ∧
    (sendModel ⟨some "http://localhost:7076", [], defaultHeadersInit⟩
        "account_balance" (JSParams.serializable [("account", JsonValue.str "nano_1abc")])
        (fun _ => TransportResult.fulfilled (JsonValue.obj [("error", JsonValue.str "")]))
        (fun _ => none)).1.outcome
      ≠ SendOutcome.rejectedData (JsonValue.obj [("error", JsonValue.str "")]) := by
  refine ⟨rfl, ?_⟩
  intro h
  exact SendOutcome.noConfusion h

/-- C2 (amended): whenever the transport delivers a fulfilled response whose
data is an object with a truthy top-level `error` field, the call rejects with
that delivered data verbatim. (The code tests `response.data.error` for
truthiness on the data as delivered: a falsy `error` value, or a body
delivered as an undecoded string, resolves instead; and a non-accepted HTTP
status surfaces as a transport rejection before this test runs.) -/
theorem c2_truthy_error_rejects (c : ClientState) (action : String)
    (fields : List (String × JsonValue)) (parse : String → Option JsonValue)
    (o : List (String × JsonValue))
    (h : truthy (jsLookup o "error") = true) :
    (sendModel c action (JSParams.serializable fields)
        (fun _ => TransportResult.fulfilled (JsonValue.obj o)) parse).1.outcome
      = SendOutcome.rejectedData (JsonValue.obj o) := by
  simp [sendModel, buildRPCBody, getErrorProp, h]

/-- Witness for C2 (amended): a node error object with non-empty message is
truthy, and the call rejects with it verbatim. -/
theorem c2_truthy_error_rejects_witness :
    truthy (jsLookup [("error", JsonValue.str "Account not found")] "error") = true ∧
    (sendModel ⟨none, [], defaultHeadersInit⟩ "account_balance"
        (JSParams.serializable [])
        (fun _ => TransportResult.fulfilled
          (JsonValue.obj [("error", JsonValue.str "Account not found")]))
        (fun _ => none)).1.outcome
      = SendOutcome.rejectedData
          (JsonValue.obj [("error", JsonValue.str "Account not found")]) :=
  ⟨rfl, c2_truthy_error_rejects _ _ _ _ _ rfl⟩

/-- C3 counterexample: with unserializable parameters the promise returned by
`_send` rejects — the failure is not a synchronous throw. `_buildRPCBody` is
evaluated inside the `new Promise` executor, whose construction converts the
throw into a rejection of the returned promise (as the source's own doc
comment on `_send` states). -/
theorem c3_counterexample :
    (sendModel ⟨some "http://localhost:7076", [], defaultHeadersInit⟩ "process"
        JSParams.unserializable (fun _ => TransportResult.rejected JsonValue.null)
        (fun _ => none)).1.outcome
      = SendOutcome.rejectedBuild JSError.serializationError ∧
    (sendModel ⟨some "http://localhost:7076", [], defaultHeadersInit⟩ "process"
        JSParams.unserializable (fun _ => TransportResult.rejected JsonValue.null)
        (fun _ => none)).1.outcome
      ≠ SendOutcome.syncThrow JSError.serializationError := by
  refine ⟨rfl, ?_⟩
  intro h
  exact SendOutcome.noConfusion h

/-- C3 (amended): when the parameter bag is not JSON-representable, the call
fails before any network activity (no request is issued and the instance state
is untouched), but the failure surfaces as a rejection of the returned
promise carrying the wrapped serialization error, not as a synchronous
throw. -/
theorem c3_serialization_rejects_before_network (c : ClientState)
    (action : String) (transport : HttpRequest → TransportResult)
    (parse : String → Option JsonValue) :
    (sendModel c action JSParams.unserializable transport parse).1.requests = [] ∧
    (sendModel c action JSParams.unserializable transport parse).1.outcome
      = SendOutcome.rejectedBuild JSError.serializationError ∧
    (sendModel c action JSParams.unserializable transport parse).2 = c :=
  ⟨rfl, rfl, rfl⟩

/-- C4 counterexample: a client constructed with a custom request header does
not keep its header state across a call: `Object.assign(this.defaultHeaders,
this.requestHeaders)` mutates the instance's `defaultHeaders`, which gains the
custom entry after one call. -/
theorem c4_counterexample :
    ((sendModel ⟨some "http://localhost:7076", [("x-api-key", "y")], defaultHeadersInit⟩
        "block_count" (JSParams.serializable [])
        (fun _ => TransportResult.rejected JsonValue.null) (fun _ => none)).2).defaultHeaders
      = [("content-type", "application/json"), ("x-api-key", "y")] ∧
    ((sendModel ⟨some "http://localhost:7076", [("x-api-key", "y")], defaultHeadersInit⟩
        "block_count" (JSParams.serializable [])
        (fun _ => TransportResult.rejected JsonValue.null) (fun _ => none)).2).defaultHeaders
      ≠ defaultHeadersInit := by
  refine ⟨rfl, ?_⟩
  intro h
  exact absurd h (by decide)

/-- C4 (amended): a call never modifies the endpoint (`nodeAddress`) or the
caller-header mapping (`requestHeaders`), but each call with serializable
parameters mutates the instance's `defaultHeaders` by merging the caller
headers into it; a call with unserializable parameters leaves the whole
instance untouched. -/
theorem c4_config_mutation_amended (c : ClientState) (action : String)
    (params : JSParams) (transport : HttpRequest → TransportResult)
    (parse : String → Option JsonValue) :
    ((sendModel c action params transport parse).2).nodeAddress = c.nodeAddress ∧
    ((sendModel c action params transport parse).2).requestHeaders
      = c.requestHeaders ∧
    ((sendModel c action params transport parse).2).defaultHeaders
      = (match params with
         | JSParams.unserializable => c.defaultHeaders
         | JSParams.serializable _ =>
             spreadInto c.defaultHeaders c.requestHeaders) := by
  cases params <;> exact ⟨rfl, rfl, rfl⟩

/-- C5: on a freshly constructed client, after any sequence of prior calls,
a call with serializable parameters issues exactly one request: a POST to the
configured endpoint carrying the built body, whose headers are (extensionally)
the default mapping with content-type `application/json` merged with the
caller-supplied headers, the caller-supplied value winning on any key
collision (`optOr` prefers the caller binding). -/
theorem c5_single_post_merged_headers (url : Option String)
    (rh : List (String × String)) (calls : List CallSpec) (action : String)
    (fields : List (String × JsonValue)) (transport : HttpRequest → TransportResult)
    (parse : String → Option JsonValue) :
    ((sendModel (runCalls ⟨url, rh, defaultHeadersInit⟩ calls) action
        (JSParams.serializable fields) transport parse).1.requests.map
      (fun r => (r.method, r.url, r.body)))
      = [("POST", url, buildRPCBodyObj action fields)] ∧
    ∀ k, ((sendModel (runCalls ⟨url, rh, defaultHeadersInit⟩ calls) action
        (JSParams.serializable fields) transport parse).1.requests.map
      (fun r => jsLookup r.headers k))
        = [optOr (jsLookup rh.reverse k) (jsLookup defaultHeadersInit k)] := by
  obtain ⟨h1, h2, h3⟩ := runCalls_preserves calls ⟨url, rh, defaultHeadersInit⟩
  constructor
  · show [("POST", (runCalls ⟨url, rh, defaultHeadersInit⟩ calls).nodeAddress,
      buildRPCBodyObj action fields)] = _
    rw [h1]
  · intro k
    show [jsLookup (spreadInto (runCalls ⟨url, rh, defaultHeadersInit⟩ calls).defaultHeaders
      (runCalls ⟨url, rh, defaultHeadersInit⟩ calls).requestHeaders) k] = _
    rw [h3 k]
    show [jsLookup (spreadInto defaultHeadersInit rh) k] = _
    rw [jsLookup_spreadInto]

/-- C8: when the delivered response data is an object without a top-level
`error` field, the call resolves with that object exactly as delivered; and
when the transport delivers the body as a JSON-encoded string, the string is
decoded with `JSON.parse` and the call resolves with the decoded value. -/
theorem c8_success_resolution (c : ClientState) (action : String)
    (fields : List (String × JsonValue)) (parse : String → Option JsonValue) :
    (∀ o, jsLookup o "error" = none →
      (sendModel c action (JSParams.serializable fields)
        (fun _ => TransportResult.fulfilled (JsonValue.obj o)) parse).1.outcome
        = SendOutcome.resolved (JsonValue.obj o)) ∧
    (∀ s v, parse s = some v →
      (sendModel c action (JSParams.serializable fields)
        (fun _ => TransportResult.fulfilled (JsonValue.str s)) parse).1.outcome
        = SendOutcome.resolved v) := by
  constructor
  · intro o ho
    simp [sendModel, buildRPCBody, getErrorProp, ho, truthy]
  · intro s v hv
    simp [sendModel, buildRPCBody, getErrorProp, truthy, hv]

/-- Witness for C8: the documented `account_balance` success body resolves
unmodified, and a string-delivered body resolves with its parse result. -/
theorem c8_success_resolution_witness :
    ((sendModel ⟨none, [], defaultHeadersInit⟩ "account_balance"
        (JSParams.serializable [])
        (fun _ => TransportResult.fulfilled (JsonValue.obj
          [("balance", JsonValue.str "100"), ("pending", JsonValue.str "5")]))
        (fun _ => none)).1.outcome
      = SendOutcome.resolved (JsonValue.obj
          [("balance", JsonValue.str "100"), ("pending", JsonValue.str "5")])) ∧
    ((sendModel ⟨none, [], defaultHeadersInit⟩ "block_count"
        (JSParams.serializable [])
        (fun _ => TransportResult.fulfilled (JsonValue.str "count payload"))
        (fun _ => some (JsonValue.obj [("count", JsonValue.str "1000")]))).1.outcome
      = SendOutcome.resolved (JsonValue.obj [("count", JsonValue.str "1000")])) :=
  ⟨(c8_success_resolution _ _ _ _).1 _ rfl, (c8_success_resolution _ _ _ _).2 _ _ rfl⟩

/-- C9: the constructor is total: it returns normally for an `undefined`
options argument and for options omitting `url` or `requestHeaders`; an
omitted `requestHeaders` becomes the empty mapping and an omitted `url`
leaves the node address `undefined`. -/
theorem c9_constructor_total :
    (∀ options, ∃ c, construct options = Except.ok c) ∧
    (∃ c, construct none = Except.ok c ∧ c.nodeAddress = none
      ∧ c.requestHeaders = [] ∧ c.defaultHeaders = defaultHeadersInit) ∧
    (∀ u, ∃ c, construct (some ⟨some u, none⟩) = Except.ok c
      ∧ c.nodeAddress = some u ∧ c.requestHeaders = []) ∧
    (∀ r, ∃ c, construct (some ⟨none, some r⟩) = Except.ok c
      ∧ c.nodeAddress = none ∧ c.requestHeaders = r) :=
  ⟨fun options => ⟨_, rfl⟩, ⟨_, rfl, rfl, rfl, rfl⟩,
   fun u => ⟨_, rfl, rfl, rfl⟩, fun r => ⟨_, rfl, rfl, rfl⟩⟩

/-- C10: the envelope builder spreads the caller parameters after the action
tag, so the built body is (extensionally) the singleton `action` object
overridden by the entries of the parameter object: any key other than
`action` reads from the parameters, and a parameter entry named `action`
replaces the action tag (last caller binding winning). -/
theorem c10_action_overridable (a : String) (p : List (String × JsonValue))
    (k : String) :
    jsLookup (buildRPCBodyObj a p) k
      = optOr (jsLookup p.reverse k)
          (if k = "action" then some (JsonValue.str a) else none) := by
  show jsLookup (spreadInto [("action", JsonValue.str a)] p) k = _
  rw [jsLookup_spreadInto]
  by_cases hk : k = "action"
  · simp [jsLookup, hk]
  · simp [jsLookup, hk, Ne.symm hk]
